import Mathlib

/-!
Verification development for the telephony/model audio bridge (`main.py`).

The Python source is shallowly embedded below:

* the stateless μ-law codec helpers (`ulaw_decode_bytes`, `ulaw_encode_bytes`,
  `is_voice`) become pure Lean functions on lists of byte values (`Nat < 256`),
  with 16-bit samples represented as `Int` and little-endian byte pairs exactly
  as `numpy` produces them;
* the `Bridge` object's mutable fields become the structure `BridgeState`;
* each event handler (`receive_from_twilio` body, `_auto_commit_loop` body,
  `_pipe_openai_to_twilio` body) becomes a function from a state and a current
  time to a new state plus the lists of messages sent on each socket.

Time (`time.time()` floats in the source) is modelled as `Int` milliseconds;
the source's constants 0.18 s / 0.7 s / 6 s / 10 s become 180 / 700 / 6000 /
10000.  A Python exception escaping a loop body is modelled with `Except`.
-/

/-- Interpret a 16-bit unsigned value as a two's-complement `int16`
(what `np.frombuffer(., dtype=np.int16)` does per sample). -/
def u16ToI16 (w : Nat) : Int :=
  if w < 32768 then (w : Int) else (w : Int) - 65536

/-- Little-endian int16 byte pairs → samples; mirrors
`np.frombuffer(bytes, dtype=np.int16)` on an even-length buffer.
(An incomplete trailing byte simply ends the list; the callers below
only apply this to even-length buffers, matching `numpy`, which raises
on an odd-length buffer — that error path is modelled where it matters,
in `ulaw_encode_bytes`.) -/
def bytesToI16 : List Nat → List Int
  | lo :: hi :: rest => u16ToI16 (lo % 256 + 256 * (hi % 256)) :: bytesToI16 rest
  | _ => []

/-- One int16 sample → its two little-endian bytes (as `ndarray.tobytes`). -/
def i16ToBytes (x : Int) : List Nat :=
  let w := (x % 65536).toNat
  [w % 256, w / 256]

/-- `_ULAW_BIAS = 0x84`. -/
def ULAW_BIAS : Int := 0x84

/-- `_ULAW_CLIP = 32635`. -/
def ULAW_CLIP : Int := 32635

/-- Decode one μ-law byte to an int16 sample, following `ulaw_decode_bytes`
in `main.py` line by line: complement, split sign/exponent/mantissa,
`magnitude = ((mant << 4) + 0x08) << exp`, then the source's
`magnitude + BIAS` immediately followed by `magnitude - BIAS` (kept verbatim:
in the source these two statements cancel), negate on sign, clip to int16. -/
def ulaw_decode_byte (b : Nat) : Int :=
  let u := (b % 256) ^^^ 0xFF
  let sign := u &&& 0x80 ≠ 0
  let e := (u >>> 4) &&& 0x07
  let m := u &&& 0x0F
  let magnitude : Int := (((m <<< 4) + 0x08) <<< e : Nat)
  let magnitude := magnitude + ULAW_BIAS - ULAW_BIAS
  let pcm : Int := if sign then -magnitude else magnitude
  max (-32768) (min 32767 pcm)

/-- `ulaw_decode_bytes`: G.711 μ-law bytes → PCM16 little-endian bytes. -/
def ulaw_decode_bytes (bs : List Nat) : List Nat :=
  (bs.map ulaw_decode_byte).flatMap i16ToBytes

/-- `_ulaw_segment_scalar`: segment (exponent) of a biased magnitude. -/
def ulaw_segment_scalar (x : Nat) : Nat :=
  if x ≥ 0x4000 then 7
  else if x ≥ 0x2000 then 6
  else if x ≥ 0x1000 then 5
  else if x ≥ 0x0800 then 4
  else if x ≥ 0x0400 then 3
  else if x ≥ 0x0200 then 2
  else if x ≥ 0x0100 then 1
  else 0

/-- Encode one int16 sample to a μ-law byte, following the loop body of
`ulaw_encode_bytes`: clip to ±32635, record the sign, add the bias to the
absolute value, find the segment, extract 4 mantissa bits, complement with
`^ 0xFF`, and then — exactly as the source does — OR in `0x80` when the
sample was negative (note the source complements *before* OR-ing the sign). -/
def ulaw_encode_sample (s : Int) : Nat :=
  let x := max (-ULAW_CLIP) (min ULAW_CLIP s)
  let sign := x < 0
  let y : Nat := x.natAbs + ULAW_BIAS.toNat
  let seg := ulaw_segment_scalar y
  let mant := (y >>> (seg + 3)) &&& 0x0F
  let u := ((seg <<< 4) ||| mant) ^^^ 0xFF
  if sign then u ||| 0x80 else u

/-- `ulaw_encode_bytes`: PCM16 little-endian bytes → μ-law bytes.
`np.frombuffer(pcm_bytes, dtype=np.int16)` raises `ValueError` on a buffer
whose length is not a multiple of 2; that fallible entry is modelled as
`none` (the input is never truncated). -/
def ulaw_encode_bytes (bs : List Nat) : Option (List Nat) :=
  if bs.length % 2 = 0 then
    some ((bytesToI16 bs).map ulaw_encode_sample)
  else
    none

/-- Sum of squared samples. -/
def sumsq (xs : List Int) : Int :=
  (xs.map (fun x => x * x)).sum

/-- `is_voice(pcm16_le, threshold=600.0)`: false on an empty byte string,
false when `np.frombuffer` yields zero samples, otherwise compares the RMS
against the threshold.  The source computes `sqrt(mean(x*x)) >= 600.0` in
floating point; here the same comparison is taken exactly:
`sqrt(sum/n) ≥ 600  ↔  sum ≥ 360000 * n`. -/
def is_voice (pcm : List Nat) : Bool :=
  if pcm = [] then false
  else
    let xs := bytesToI16 pcm
    if xs = [] then false
    else decide (sumsq xs ≥ 360000 * (xs.length : Int))

/-- Env defaults from `main.py`. -/
def GREETING : String := "Hallo, ich bin Maria von wowona. Womit kann ich helfen?"

/-- Idle prompt text sent by `_auto_commit_loop` step (3). -/
def IDLE_PROMPT_TEXT : String := "Möchten Sie noch etwas wissen?"

/-- Goodbye text sent by `_auto_commit_loop` before closing. -/
def GOODBYE_TEXT : String := "Danke für Ihren Anruf. Auf Wiederhören!"

/-- `SILENCE_COMMIT_GAP = 0.18` s, in milliseconds. -/
def SILENCE_COMMIT_GAP : Int := 180

/-- `FORCE_COMMIT_INTERVAL = 0.7` s, in milliseconds. -/
def FORCE_COMMIT_INTERVAL : Int := 700

/-- `IDLE_PROMPT_AFTER = 6.0` s, in milliseconds. -/
def IDLE_PROMPT_AFTER : Int := 6000

/-- `HANGUP_AFTER_IDLE = 10.0` s, in milliseconds. -/
def HANGUP_AFTER_IDLE : Int := 10000

/-- `BUFFER_BYTES_THRESHOLD = 6000`. -/
def BUFFER_BYTES_THRESHOLD : Nat := 6000

/-- The mutable fields of the `Bridge` object (`__init__`). -/
structure BridgeState where
  stream_sid : Option String
  last_media_ts : Int
  last_commit_ts : Int
  last_activity_ts : Int
  bytes_buffered : Nat
  playing_audio : Bool
  closed : Bool
  seen_start : Bool
  idle_prompt_sent : Bool
deriving DecidableEq

/-- `Bridge.__init__` at time `now` (`last_activity_ts = time.time()`). -/
def bridgeInit (now : Int) : BridgeState :=
  { stream_sid := none
    last_media_ts := 0
    last_commit_ts := 0
    last_activity_ts := now
    bytes_buffered := 0
    playing_audio := false
    closed := false
    seen_start := false
    idle_prompt_sent := false }

/-- Messages the bridge sends on the model (OpenAI) socket.  The wire
protocol also has `response.cancel` and `conversation_item.truncate`
message types (spec §6); they are constructors here so that "never sent"
is a statement about the program, not about the type. -/
inductive OaiMsg where
  | sessionUpdate
  | inputAudioAppend (audio : List Nat)
  | inputAudioCommit
  | responseCreate (instructions : Option String)
  | responseCancel
  | conversationItemTruncate
deriving DecidableEq

/-- Messages the bridge sends on the carrier (Twilio) socket. -/
inductive TwMsg where
  | media (sid : String) (payload : List Nat)
  | clear (sid : String)
  | mark (sid : String) (name : String)
deriving DecidableEq

/-- Events `receive_from_twilio` dispatches on (`data.get("event")`).
`media` carries the already-base64-decoded μ-law payload; `other` is any
unrecognized event string (no branch matches: nothing happens). -/
inductive TwEvent where
  | connected
  | start (sid : Option String)
  | media (payload : List Nat)
  | stop
  | other
deriving DecidableEq

/-- Events `_pipe_openai_to_twilio` dispatches on (`data.get("type")`).
`sessionUpdated` is the model's configuration acknowledgment — the source
has no branch for it, so it falls through to a no-op.  `audioDelta` carries
the decoded PCM payload, `none` when the `delta`/`audio` field is absent. -/
inductive OaiEvent where
  | sessionUpdated
  | audioDelta (payload : Option (List Nat))
  | audioDone
  | errorEvt
  | other
deriving DecidableEq

/-- Result of one iteration of the `receive_from_twilio` loop body:
new state, messages sent to the model socket (in order), messages sent to
the carrier socket, and whether the loop `break`s (only on `stop`). -/
structure TwStep where
  state : BridgeState
  toOai : List OaiMsg
  toTw : List TwMsg
  brk : Bool
deriving DecidableEq

/-- One iteration of the `receive_from_twilio` loop body at time `now`
(every `time.time()` call inside one iteration is modelled as `now`).
Translated branch by branch from `main.py` lines 316–382; the inner
barge-in check (lines 357–361) is kept verbatim even though the outer
`if self.playing_audio: ... continue` (line 343) makes it unreachable. -/
def handleTwilioEvent (s : BridgeState) (now : Int) : TwEvent → TwStep
  | .connected => ⟨s, [], [], false⟩
  | .start sid =>
      ⟨{ s with seen_start := true, stream_sid := sid,
                last_commit_ts := now, last_activity_ts := now,
                idle_prompt_sent := false },
       [.responseCreate (some GREETING)], [], false⟩
  | .media payload =>
      if s.playing_audio then
        ⟨{ s with last_media_ts := now }, [], [], false⟩
      else
        let pcm := ulaw_decode_bytes payload
        if is_voice pcm = false then
          ⟨{ s with last_media_ts := now }, [], [], false⟩
        else
          let bargeIn := s.playing_audio && s.stream_sid.isSome
          let twOut := if bargeIn then [TwMsg.clear (s.stream_sid.getD "")] else []
          let s1 := if bargeIn then { s with playing_audio := false } else s
          ⟨{ s1 with bytes_buffered := s1.bytes_buffered + pcm.length,
                     last_media_ts := now, last_activity_ts := now,
                     idle_prompt_sent := false },
           [.inputAudioAppend pcm], twOut, false⟩
  | .stop =>
      if 0 < s.bytes_buffered ∧ s.playing_audio = false then
        ⟨{ s with bytes_buffered := 0, last_commit_ts := now },
         [.inputAudioCommit, .responseCreate none], [], true⟩
      else
        ⟨s, [], [], true⟩
  | .other => ⟨s, [], [], false⟩

/-- Result of one iteration of the `_auto_commit_loop` body. -/
structure TickStep where
  state : BridgeState
  toOai : List OaiMsg
deriving DecidableEq

/-- One iteration of the `_auto_commit_loop` body at time `now`
(`main.py` lines 229–285).  Steps, in source order: while the assistant
is speaking skip everything; (1) silence-gap commit (then `continue`);
(2) forced-interval commit — note: no `continue`, so step (3), the idle
check, still runs in the same iteration; (3) idle prompt, then goodbye
plus `close()` (modelled as `closed := true`). -/
def autoCommitTick (s : BridgeState) (now : Int) : TickStep :=
  if s.playing_audio then ⟨s, []⟩
  else if s.last_media_ts ≠ 0 ∧ now - s.last_media_ts > SILENCE_COMMIT_GAP ∧
          0 < s.bytes_buffered then
    ⟨{ s with bytes_buffered := 0, last_commit_ts := now, last_media_ts := 0 },
     [.inputAudioCommit, .responseCreate none]⟩
  else
    let forced := BUFFER_BYTES_THRESHOLD ≤ s.bytes_buffered ∧
                  FORCE_COMMIT_INTERVAL ≤ now - s.last_commit_ts
    let s1 := if forced then { s with bytes_buffered := 0, last_commit_ts := now } else s
    let m1 : List OaiMsg := if forced then [.inputAudioCommit, .responseCreate none] else []
    let idle_for := now - s1.last_activity_ts
    if IDLE_PROMPT_AFTER ≤ idle_for ∧ s1.idle_prompt_sent = false then
      ⟨{ s1 with idle_prompt_sent := true, last_activity_ts := now },
       m1 ++ [.responseCreate (some IDLE_PROMPT_TEXT)]⟩
    else if s1.idle_prompt_sent = true ∧ IDLE_PROMPT_AFTER + HANGUP_AFTER_IDLE ≤ idle_for then
      ⟨{ s1 with closed := true }, m1 ++ [.responseCreate (some GOODBYE_TEXT)]⟩
    else
      ⟨s1, m1⟩

/-- One iteration of the `_pipe_openai_to_twilio` loop body
(`main.py` lines 396–431).  `Except.error ()` models a Python exception
escaping the iteration (the only such source inside the dispatch is
`ulaw_encode_bytes` on an odd-length delta payload); the enclosing
`try`/`except` sits *outside* the `async for`, so an error ends the loop. -/
def handleOaiEvent (s : BridgeState) (now : Int) :
    OaiEvent → Except Unit (BridgeState × List TwMsg)
  | .sessionUpdated => .ok (s, [])
  | .audioDelta payload =>
      match payload with
      | none => .ok (s, [])
      | some pcm =>
        if pcm = [] then .ok (s, [])
        else
          match ulaw_encode_bytes pcm with
          | none => .error ()
          | some ulaw =>
            match s.stream_sid with
            | some sid => .ok ({ s with playing_audio := true }, [.media sid ulaw])
            | none => .ok (s, [])
  | .audioDone =>
      match s.stream_sid with
      | some sid =>
          .ok ({ s with playing_audio := false, last_activity_ts := now,
                        idle_prompt_sent := false },
               [.mark sid "assistant_turn_done"])
      | none => .ok (s, [])
  | .errorEvt => .ok (s, [])
  | .other => .ok (s, [])

/-- The `async for` loop of `_pipe_openai_to_twilio` over a list of model
events: messages already sent stay sent; an exception stops the loop with
the state as it was at the start of the failing iteration. -/
def oaiPipeRun (s : BridgeState) (now : Int) : List OaiEvent → BridgeState × List TwMsg
  | [] => (s, [])
  | e :: rest =>
    match handleOaiEvent s now e with
    | .error _ => (s, [])
    | .ok (s', out) =>
      let r := oaiPipeRun s' now rest
      (r.1, out ++ r.2)

/-- A bridge-global event: one carrier message, one model message, or one
wake-up of the auto-commit poller. -/
inductive GEv where
  | tw (e : TwEvent)
  | oai (e : OaiEvent)
  | tick
deriving DecidableEq

/-- Whole-session run state: the bridge object plus the logs of messages
sent on each socket (oldest first), the number of configuration
acknowledgments (`session.updated`) processed so far — the ground truth for
"the model has acknowledged the session configuration", which the bridge
itself does not track — and whether the model-to-carrier loop has died to
an exception. -/
structure RunState where
  bridge : BridgeState
  oaiLog : List OaiMsg
  twLog : List TwMsg
  acks : Nat
  oaiPipeDead : Bool
deriving DecidableEq

/-- Process one global event at time `now`.  A twilio-loop `break` (on
`stop`) runs `close()`; after `close()` every loop is gone, so a closed
bridge ignores further events.  An exception in the model pipe kills only
that loop. -/
def runStep (r : RunState) (now : Int) : GEv → RunState
  | .tw e =>
      if r.bridge.closed then r
      else
        let st := handleTwilioEvent r.bridge now e
        let b := if st.brk then { st.state with closed := true } else st.state
        { r with bridge := b, oaiLog := r.oaiLog ++ st.toOai, twLog := r.twLog ++ st.toTw }
  | .oai e =>
      if r.bridge.closed || r.oaiPipeDead then r
      else
        let acks' := match e with
          | .sessionUpdated => r.acks + 1
          | _ => r.acks
        match handleOaiEvent r.bridge now e with
        | .error _ => { r with oaiPipeDead := true, acks := acks' }
        | .ok (b, out) => { r with bridge := b, twLog := r.twLog ++ out, acks := acks' }
  | .tick =>
      if r.bridge.closed then r
      else
        let t := autoCommitTick r.bridge now
        { r with bridge := t.state, oaiLog := r.oaiLog ++ t.toOai }

/-- A whole-session run from a fresh bridge: `Bridge.start()` has already
awaited `open_openai`, which sent the `session.update` configuration
message, before either loop processes anything. -/
def bridgeRun (evs : List (Int × GEv)) : RunState :=
  evs.foldl (fun r p => runStep r p.1 p.2)
    { bridge := bridgeInit 0, oaiLog := [.sessionUpdate], twLog := [], acks := 0,
      oaiPipeDead := false }

/-- Number of `input_audio_buffer.commit` messages in a model-socket log. -/
def countCommits (ms : List OaiMsg) : Nat :=
  ms.countP (fun m => m = .inputAudioCommit)

/-- Number of `response.cancel` messages in a model-socket log. -/
def countCancels (ms : List OaiMsg) : Nat :=
  ms.countP (fun m => m = .responseCancel)

/-- Number of `clear` (clear-playback) messages in a carrier-socket log. -/
def countClears (ms : List TwMsg) : Nat :=
  ms.countP (fun m => match m with | .clear _ => true | _ => false)

/-- Each int16 sample serializes to exactly two bytes. -/
theorem i16ToBytes_length (x : Int) : (i16ToBytes x).length = 2 := rfl

/-- Decoding doubles the byte count (one μ-law byte → one 2-byte sample). -/
theorem ulaw_decode_bytes_length :
    ∀ bs : List Nat, (ulaw_decode_bytes bs).length = 2 * bs.length
  | [] => rfl
  | b :: rest => by
      have ih := ulaw_decode_bytes_length rest
      simp only [ulaw_decode_bytes, List.map_cons, List.flatMap_cons,
        List.length_append, i16ToBytes_length, List.length_cons] at ih ⊢
      omega

/-- Parsing little-endian int16 pairs halves the byte count. -/
theorem bytesToI16_length :
    ∀ bs : List Nat, (bytesToI16 bs).length = bs.length / 2
  | [] => rfl
  | [_] => by simp [bytesToI16]
  | _ :: _ :: rest => by
      have ih := bytesToI16_length rest
      simp only [bytesToI16, List.length_cons] at ih ⊢
      omega

set_option maxRecDepth 40000 in
/-- C4: the spec claims `encodeLinearToCompanded(decodeCompandedToLinear(x)) ≈ x`
with per-sample error bounded by the companding quantization step (at most
2048 at the top segment).  The code violates this badly: in
`ulaw_encode_bytes` the complement `^ 0xFF` is applied *before* the sign bit
is OR-ed in, so bit 7 of every output byte is already set and `u |= 0x80` is
a no-op — the sign is destroyed.  Concretely, the companded byte `0x00`
decodes to the full-scale negative sample −31744, but re-encoding yields
`0x80`, which decodes to +31744: a per-sample error of 63488.  The final
conjunct shows the sign loss is systematic: for every companded byte, the
round-tripped sample is non-negative. -/
theorem C4_roundtrip_sign_loss :
    ulaw_encode_bytes (ulaw_decode_bytes [0]) = some [128] ∧
    ulaw_decode_byte 0 = -31744 ∧
    ulaw_decode_byte 128 = 31744 ∧
    ((List.range 256).all fun b =>
      decide (0 ≤ ulaw_decode_byte (ulaw_encode_sample (ulaw_decode_byte b)))) = true := by
  decide

/-- C6: `len(decodeCompandedToLinear(x)) = 2 * len(x)` for every companded
input, and for every even-length linear-PCM input `y` the encoder succeeds
with output of length `len(y) / 2`. -/
theorem C6_codec_lengths :
    (∀ bs : List Nat, (ulaw_decode_bytes bs).length = 2 * bs.length) ∧
    (∀ bs : List Nat, bs.length % 2 = 0 →
      ∃ l, ulaw_encode_bytes bs = some l ∧ l.length = bs.length / 2) := by
  refine ⟨ulaw_decode_bytes_length, fun bs h => ?_⟩
  refine ⟨(bytesToI16 bs).map ulaw_encode_sample, ?_, ?_⟩
  · simp [ulaw_encode_bytes, h]
  · simp [bytesToI16_length]

/-- Witness for C6 at concrete inputs. -/
theorem C6_codec_lengths_witness :
    (ulaw_decode_bytes [0, 128]).length = 2 * 2 ∧
    ∃ l, ulaw_encode_bytes [0, 132] = some l ∧ l.length = 1 := by
  refine ⟨C6_codec_lengths.1 [0, 128], ?_⟩
  simpa using C6_codec_lengths.2 [0, 132] (by decide)

/-- C9: while `playing_audio` is true, one iteration of `_auto_commit_loop`
does nothing at all — no commit, no idle prompt, no state change —
regardless of buffered bytes or elapsed silence (the `continue` on
`main.py` line 236 precedes every other check). -/
theorem C9_tick_skipped_while_speaking (s : BridgeState) (now : Int)
    (h : s.playing_audio = true) : autoCommitTick s now = ⟨s, []⟩ := by
  simp [autoCommitTick, h]

/-- Witness for C9: a state with a huge silence gap, a buffer over the
forced-commit threshold and long-expired idle timers — still a no-op
because the assistant is speaking. -/
theorem C9_tick_skipped_while_speaking_witness :
    autoCommitTick
        { bridgeInit 0 with
          playing_audio := true
          bytes_buffered := 9000
          last_media_ts := 1 } 100000
      = ⟨{ bridgeInit 0 with
           playing_audio := true
           bytes_buffered := 9000
           last_media_ts := 1 }, []⟩ :=
  C9_tick_skipped_while_speaking _ _ rfl

/-- C2 counterexample: the claim says zero input-audio-commit messages are
issued in response to stream-stopped; but `receive_from_twilio` (lines
376–382) forces a final commit on `stop` whenever bytes are buffered and
the assistant is not speaking.  Processing `stop` with 320 buffered bytes
emits exactly one commit. -/
theorem C2_stop_commit_cex :
    countCommits
      (handleTwilioEvent { bridgeInit 0 with bytes_buffered := 320 } 9 .stop).toOai = 1 := by
  decide

/-- C2 amended: on stream-stopped the code forces exactly one final commit
(followed by a response request) iff the buffer is non-empty and the
assistant is not speaking; otherwise it sends nothing.  In both cases the
receive loop breaks (and `close()` runs, so nothing at all is sent after
stop: a closed bridge ignores every further event). -/
theorem C2_stop_commit_amended (s : BridgeState) (now : Int) :
    (handleTwilioEvent s now .stop).toOai
      = (if 0 < s.bytes_buffered ∧ s.playing_audio = false
         then [.inputAudioCommit, .responseCreate none] else []) ∧
    (handleTwilioEvent s now .stop).state.bytes_buffered
      = (if 0 < s.bytes_buffered ∧ s.playing_audio = false then 0 else s.bytes_buffered) ∧
    (handleTwilioEvent s now .stop).brk = true ∧
    (∀ (r : RunState) (t : Int) (e : GEv), r.bridge.closed = true → runStep r t e = r) := by
  refine ⟨?_, ?_, ?_, ?_⟩
  · by_cases h : 0 < s.bytes_buffered ∧ s.playing_audio = false <;>
      simp [handleTwilioEvent, h]
  · by_cases h : 0 < s.bytes_buffered ∧ s.playing_audio = false <;>
      simp [handleTwilioEvent, h]
  · by_cases h : 0 < s.bytes_buffered ∧ s.playing_audio = false <;>
      simp [handleTwilioEvent, h]
  · intro r t e h
    cases e <;> simp [runStep, h]

/-- C1 counterexample: the claim says a media frame arriving while the
assistant speaks triggers exactly one clear-playback and one
response-cancel.  In the code, `receive_from_twilio` line 343 ignores the
frame entirely while `playing_audio` is true: zero messages are sent on
either socket (the payload `[0]` decodes to a full-scale, voiced sample,
so this is a genuine barge-in attempt). -/
theorem C1_barge_in_cex :
    (handleTwilioEvent
        { bridgeInit 0 with playing_audio := true, stream_sid := some "CA123" } 5
        (.media [0])).toTw = [] ∧
    (handleTwilioEvent
        { bridgeInit 0 with playing_audio := true, stream_sid := some "CA123" } 5
        (.media [0])).toOai = [] :=
  ⟨rfl, rfl⟩

/-- C1 amended: while the assistant is speaking, every inbound media frame
is dropped — only `last_media_ts` is updated, no message goes to either
socket — and the bridge never sends a response-cancel message at all, from
any handler (the barge-in branch at lines 357–361 is unreachable and even
it sends no cancel; no `bargeInTriggered` latch exists). -/
theorem C1_media_ignored_while_speaking :
    (∀ (s : BridgeState) (now : Int) (p : List Nat), s.playing_audio = true →
      handleTwilioEvent s now (.media p)
        = ⟨{ s with last_media_ts := now }, [], [], false⟩) ∧
    (∀ (s : BridgeState) (now : Int) (e : TwEvent),
      countCancels (handleTwilioEvent s now e).toOai = 0) ∧
    (∀ (s : BridgeState) (now : Int),
      countCancels (autoCommitTick s now).toOai = 0) := by
  refine ⟨?_, ?_, ?_⟩
  · intro s now p h
    simp [handleTwilioEvent, h]
  · intro s now e
    cases e <;>
      first
        | (simp only [handleTwilioEvent] ; split_ifs <;> simp [countCancels])
        | simp [handleTwilioEvent, countCancels]
  · intro s now
    simp only [autoCommitTick]
    split_ifs <;> simp [countCancels]

/-- Witness for C1 amended, at a speaking state with a voiced frame. -/
theorem C1_media_ignored_while_speaking_witness :
    handleTwilioEvent
        { bridgeInit 0 with playing_audio := true, stream_sid := some "CA9" } 7
        (.media [0])
      = ⟨{ bridgeInit 0 with
           playing_audio := true
           stream_sid := some "CA9"
           last_media_ts := 7 }, [], [], false⟩ :=
  C1_media_ignored_while_speaking.1 _ 7 [0] rfl

/-- C3 counterexample: a run in which the model never acknowledged the
session configuration (zero `session.updated` events processed, so
`modelReady` would still be false), yet the caller's first voiced media
frame is already forwarded to the model as `input_audio_buffer.append`.
The code has no `modelReady` gate: `open_openai` sends `session.update`
and waits for nothing, and `receive_from_twilio` forwards unconditionally. -/
theorem C3_forward_before_ready_cex :
    (bridgeRun [(1, .tw (.start (some "CA123"))), (2, .tw (.media [0]))]).acks = 0 ∧
    (bridgeRun [(1, .tw (.start (some "CA123"))), (2, .tw (.media [0]))]).oaiLog
      = [.sessionUpdate, .responseCreate (some GREETING), .inputAudioAppend [0, 132]] :=
  ⟨rfl, rfl⟩

/-- C3 amended: inbound voiced audio is forwarded to the model
unconditionally — as soon as the model socket is open and the
configuration message has been sent — with no notion of readiness in the
bridge state: whenever the assistant is not speaking and the decoded frame
passes the voice gate, the append is emitted. -/
theorem C3_forward_unconditional (s : BridgeState) (now : Int) (p : List Nat)
    (h1 : s.playing_audio = false)
    (h2 : is_voice (ulaw_decode_bytes p) = true) :
    (handleTwilioEvent s now (.media p)).toOai
      = [.inputAudioAppend (ulaw_decode_bytes p)] := by
  simp [handleTwilioEvent, h1, h2]

/-- Witness for C3 amended on a fresh (never-acknowledged) bridge. -/
theorem C3_forward_unconditional_witness :
    (handleTwilioEvent (bridgeInit 0) 3 (.media [0])).toOai
      = [.inputAudioAppend (ulaw_decode_bytes [0])] :=
  C3_forward_unconditional _ 3 [0] rfl (by decide)

/-- C5: no commit path ever emits `input_audio_buffer.commit` from an
empty accumulator, and every path that commits resets the accumulator to
zero: this covers both `_auto_commit_loop` branches (silence-gap commit
and forced-interval commit) and the only other commit site, the `stop`
handler in `receive_from_twilio`. -/
theorem C5_commit_nonempty_and_reset (s : BridgeState) (now : Int) :
    (0 < countCommits (autoCommitTick s now).toOai →
      0 < s.bytes_buffered ∧ (autoCommitTick s now).state.bytes_buffered = 0) ∧
    (∀ e : TwEvent, 0 < countCommits (handleTwilioEvent s now e).toOai →
      0 < s.bytes_buffered ∧ (handleTwilioEvent s now e).state.bytes_buffered = 0) := by
  constructor
  · simp only [autoCommitTick]
    split_ifs <;> simp [countCommits, BUFFER_BYTES_THRESHOLD] at * <;> omega
  · intro e
    cases e <;>
      first
        | (simp only [handleTwilioEvent] ; split_ifs <;>
            simp [countCommits] <;> omega)
        | simp [handleTwilioEvent, countCommits]

/-- Witness for C5 at the two concrete commit sites: a silence-gap tick
commit (160 buffered bytes, 999 ms since the last frame) and a stop-event
commit. -/
theorem C5_commit_nonempty_and_reset_witness :
    (0 < ({ bridgeInit 0 with bytes_buffered := 160, last_media_ts := 1 }
            : BridgeState).bytes_buffered ∧
      (autoCommitTick { bridgeInit 0 with bytes_buffered := 160, last_media_ts := 1 }
        1000).state.bytes_buffered = 0) ∧
    (0 < ({ bridgeInit 0 with bytes_buffered := 320 } : BridgeState).bytes_buffered ∧
      (handleTwilioEvent { bridgeInit 0 with bytes_buffered := 320 } 9
        .stop).state.bytes_buffered = 0) :=
  ⟨(C5_commit_nonempty_and_reset _ 1000).1 (by decide),
   (C5_commit_nonempty_and_reset _ 9).2 .stop (by decide)⟩

/-- C7 counterexample to the session-level half of the claim: the
`try`/`except` in `_pipe_openai_to_twilio` sits outside the `async for`
loop, so an odd-length delta payload does not merely drop that frame — it
ends the model-to-carrier loop.  With events
`[delta [1,2,3] (odd), delta [0,0] (valid)]` nothing is relayed, while the
valid frame alone would be relayed as one outbound media message. -/
theorem C7_error_kills_pipe_cex :
    (oaiPipeRun { bridgeInit 0 with stream_sid := some "CA123" } 7
        [.audioDelta (some [1, 2, 3]), .audioDelta (some [0, 0])]).2 = [] ∧
    (oaiPipeRun { bridgeInit 0 with stream_sid := some "CA123" } 7
        [.audioDelta (some [0, 0])]).2 = [.media "CA123" [255]] :=
  ⟨rfl, rfl⟩

/-- C7 amended: an odd-length linear-PCM input makes the encoder fail
(`np.frombuffer` raises; modelled as `none`) and is never silently
truncated; at the session level the error is caught and logged at the
loop boundary, but it terminates the model-to-carrier loop: a run whose
first event carries an odd-length delta payload produces no outbound
message at all and processes none of the remaining events (the session
itself is not closed — the state is returned unchanged). -/
theorem C7_odd_length_errors :
    (∀ bs : List Nat, bs.length % 2 = 1 → ulaw_encode_bytes bs = none) ∧
    (∀ (s : BridgeState) (now : Int) (p : List Nat) (rest : List OaiEvent),
      p ≠ [] → p.length % 2 = 1 →
      oaiPipeRun s now (.audioDelta (some p) :: rest) = (s, [])) := by
  constructor
  · intro bs h
    simp only [ulaw_encode_bytes]
    split_ifs with h2
    · omega
    · rfl
  · intro s now p rest hne hodd
    have henc : ulaw_encode_bytes p = none := by
      simp only [ulaw_encode_bytes]
      split_ifs with h2
      · omega
      · rfl
    simp [oaiPipeRun, handleOaiEvent, hne, henc]

/-- Witness for C7 amended at a one-byte payload. -/
theorem C7_odd_length_errors_witness :
    ulaw_encode_bytes [9] = none ∧
    oaiPipeRun (bridgeInit 0) 0 [.audioDelta (some [9])] = (bridgeInit 0, []) :=
  ⟨C7_odd_length_errors.1 [9] rfl,
   C7_odd_length_errors.2 _ 0 [9] [] (by decide) rfl⟩

/-- C8: with a session established (`stream_sid` set), `assistantSpeaking`
(`playing_audio`) becomes true on any audio-delta of the response —
in particular the first — becomes false on the completion event
(`response.audio.done`, the model's completion acknowledgment), and is
changed by no other model event; moreover no carrier event and no
auto-commit iteration changes `playing_audio`, so it stays true at every
point between the first delta and the completion event and false
afterwards.  (No cancellation acknowledgment ever arrives in this program:
the bridge never sends `response.cancel`.) -/
theorem C8_speaking_transitions (s : BridgeState) (now : Int) (sid : String)
    (h : s.stream_sid = some sid) :
    (∀ p : List Nat, p ≠ [] → p.length % 2 = 0 →
      ∃ ulaw, handleOaiEvent s now (.audioDelta (some p))
        = .ok ({ s with playing_audio := true }, [.media sid ulaw])) ∧
    (handleOaiEvent s now .audioDone
      = .ok ({ s with
               playing_audio := false
               last_activity_ts := now
               idle_prompt_sent := false }, [.mark sid "assistant_turn_done"])) ∧
    (∀ e : OaiEvent, e = .sessionUpdated ∨ e = .errorEvt ∨ e = .other →
      handleOaiEvent s now e = .ok (s, [])) ∧
    (∀ e : TwEvent, (handleTwilioEvent s now e).state.playing_audio = s.playing_audio) ∧
    ((autoCommitTick s now).state.playing_audio = s.playing_audio) := by
  refine ⟨?_, ?_, ?_, ?_, ?_⟩
  · intro p hne heven
    refine ⟨(bytesToI16 p).map ulaw_encode_sample, ?_⟩
    have henc : ulaw_encode_bytes p = some ((bytesToI16 p).map ulaw_encode_sample) := by
      simp [ulaw_encode_bytes, heven]
    simp [handleOaiEvent, hne, henc, h]
  · simp [handleOaiEvent, h]
  · rintro e (rfl | rfl | rfl) <;> rfl
  · intro e
    cases e <;>
      first
        | (simp only [handleTwilioEvent] ; split_ifs <;> simp_all)
        | simp [handleTwilioEvent]
  · simp only [autoCommitTick]
    split_ifs <;> simp

/-- Witness for C8 on a concrete session and a two-byte delta. -/
theorem C8_speaking_transitions_witness :
    (∃ ulaw, handleOaiEvent { bridgeInit 0 with stream_sid := some "CA1" } 4
        (.audioDelta (some [0, 0]))
      = .ok ({ bridgeInit 0 with stream_sid := some "CA1", playing_audio := true },
             [.media "CA1" ulaw])) ∧
    handleOaiEvent { bridgeInit 0 with stream_sid := some "CA1" } 4 .audioDone
      = .ok ({ bridgeInit 0 with
               stream_sid := some "CA1"
               playing_audio := false
               last_activity_ts := 4
               idle_prompt_sent := false },
             [.mark "CA1" "assistant_turn_done"]) := by
  have h := C8_speaking_transitions { bridgeInit 0 with stream_sid := some "CA1" } 4 "CA1" rfl
  exact ⟨h.1 [0, 0] (by decide) rfl, h.2.1⟩

/-- The voice gate returns false whenever the mean square of the decoded
samples is below the threshold (exactly the RMS-below-600 condition). -/
theorem is_voice_eq_false_of_quiet (pcm : List Nat)
    (h : sumsq (bytesToI16 pcm) < 360000 * ((bytesToI16 pcm).length : Int)) :
    is_voice pcm = false := by
  simp only [is_voice]
  split_ifs with h1 h2
  · rfl
  · rfl
  · simpa using h.not_le

/-- C10: an inbound media frame whose decoded PCM has RMS below 600 —
that is, sum of squared samples below `600² · n` — or which is empty, is
dropped while the assistant is not speaking: no append to the model, no
message on either socket, buffered-byte accumulator and every other field
unchanged, only `last_media_ts` updated; and from an empty accumulator no
iteration of the auto-commit loop can emit a commit, so such noise alone
never causes one. -/
theorem C10_noise_dropped (s : BridgeState) (now : Int) (p : List Nat)
    (h1 : s.playing_audio = false)
    (h2 : p = [] ∨ sumsq (bytesToI16 (ulaw_decode_bytes p))
            < 360000 * ((bytesToI16 (ulaw_decode_bytes p)).length : Int)) :
    handleTwilioEvent s now (.media p)
      = ⟨{ s with last_media_ts := now }, [], [], false⟩ ∧
    (∀ (s' : BridgeState) (now' : Int), s'.bytes_buffered = 0 →
      countCommits (autoCommitTick s' now').toOai = 0) := by
  constructor
  · have hv : is_voice (ulaw_decode_bytes p) = false := by
      rcases h2 with rfl | h2
      · rfl
      · exact is_voice_eq_false_of_quiet _ h2
    simp [handleTwilioEvent, h1, hv]
  · intro s' now' hb
    simp only [autoCommitTick]
    split_ifs <;> simp_all [countCommits, BUFFER_BYTES_THRESHOLD]

/-- Witness for C10: the frame `[0xFF]` decodes to the single sample 8
(RMS 8 < 600) and is dropped; a fresh-state tick emits no commit. -/
theorem C10_noise_dropped_witness :
    handleTwilioEvent (bridgeInit 0) 6 (.media [255])
      = ⟨{ bridgeInit 0 with last_media_ts := 6 }, [], [], false⟩ ∧
    countCommits
      (autoCommitTick { bridgeInit 0 with last_media_ts := 1 } 1000).toOai = 0 := by
  have h := C10_noise_dropped (bridgeInit 0) 6 [255] rfl (Or.inr (by decide))
  exact ⟨h.1, h.2 _ 1000 rfl⟩

/-- Witness for C2 amended: with 320 buffered bytes and the assistant not
speaking, `stop` emits the commit pair; and a closed bridge ignores a tick. -/
theorem C2_stop_commit_amended_witness :
    (handleTwilioEvent { bridgeInit 0 with bytes_buffered := 320 } 9 .stop).toOai
      = (if 0 < ({ bridgeInit 0 with bytes_buffered := 320 } : BridgeState).bytes_buffered ∧
            ({ bridgeInit 0 with bytes_buffered := 320 } : BridgeState).playing_audio = false
         then [.inputAudioCommit, .responseCreate none] else []) ∧
    runStep ⟨{ bridgeInit 0 with closed := true }, [], [], 0, false⟩ 5 .tick
      = ⟨{ bridgeInit 0 with closed := true }, [], [], 0, false⟩ :=
  ⟨(C2_stop_commit_amended { bridgeInit 0 with bytes_buffered := 320 } 9).1,
   (C2_stop_commit_amended (bridgeInit 0) 9).2.2.2 _ 5 .tick rfl⟩
